import Mathlib

/-!
Verification of the fraud-detection core: a shallow embedding of
`app/utils/preprocessing.py` (the anomaly detector) and
`app/services/prediction.py` (the scoring orchestrator), with theorems
settling the specification claims about them.

Numeric values are modelled as rationals with exact arithmetic.  Reason
messages are modelled as strings; the Python float formatting inside the
messages (comma grouping, fixed decimals) is abstracted by a canonical
rational rendering, since the claims only constrain which messages appear
and in what order, never the digit rendering inside one message.
-/

namespace FraudDetection

/-- The transaction categories of the `TransactionType` enumeration in
`app/schemas/transaction.py`. -/
inductive TransactionType
  | PAYMENT
  | TRANSFER
  | CASH_OUT
  | DEBIT
  | CASH_IN
  deriving Repr, DecidableEq

/-- A validated transaction record, after the Pydantic `Transaction` schema of
`app/schemas/transaction.py` has accepted it: all numeric fields are present
(the schema marks them required, so the dictionary handed to the core always
holds every key the detector looks up). -/
structure Transaction where
  transaction_id : Option String
  step : Nat
  amount : ℚ
  oldbalanceOrg : ℚ
  newbalanceOrig : ℚ
  oldbalanceDest : ℚ
  newbalanceDest : ℚ
  txType : TransactionType
  isFlaggedFraud : Nat
  deriving Repr, DecidableEq

/-- One entry of the `_feature_stats` table in `app/utils/preprocessing.py`.
The 99th percentile is optional because the detector reads it with
`stats.get` and falls back to `0.9 * max` when it is absent. -/
structure FeatureStats where
  mean : ℚ
  std : ℚ
  min : ℚ
  max : ℚ
  q25 : ℚ
  q50 : ℚ
  q75 : ℚ
  q99 : Option ℚ
  deriving Repr, DecidableEq

/-- The five numeric feature names iterated by `is_anomalous`, in source
order. -/
inductive Feat
  | amount
  | oldbalanceOrg
  | newbalanceOrig
  | oldbalanceDest
  | newbalanceDest
  deriving Repr, DecidableEq

/-- The iteration order of the feature loop in `is_anomalous`. -/
def featList : List Feat :=
  [Feat.amount, Feat.oldbalanceOrg, Feat.newbalanceOrig,
   Feat.oldbalanceDest, Feat.newbalanceDest]

/-- The feature name string used in reason messages. -/
def featName : Feat → String
  | Feat.amount => "amount"
  | Feat.oldbalanceOrg => "oldbalanceOrg"
  | Feat.newbalanceOrig => "newbalanceOrig"
  | Feat.oldbalanceDest => "oldbalanceDest"
  | Feat.newbalanceDest => "newbalanceDest"

/-- The transaction value looked up for a feature. -/
def featValue (t : Transaction) : Feat → ℚ
  | Feat.amount => t.amount
  | Feat.oldbalanceOrg => t.oldbalanceOrg
  | Feat.newbalanceOrig => t.newbalanceOrig
  | Feat.oldbalanceDest => t.oldbalanceDest
  | Feat.newbalanceDest => t.newbalanceDest

/-- The bundled default `_feature_stats` table of
`app/utils/preprocessing.py`, verbatim. -/
def feature_stats : Feat → FeatureStats
  | Feat.amount =>
      ⟨179553, 603858, 0, 92445516, 13.55, 74.87, 208, some 1111864⟩
  | Feat.oldbalanceOrg =>
      ⟨835641, 2888242, 0, 59585040, 0, 14208, 107360, some 8940000⟩
  | Feat.newbalanceOrig =>
      ⟨855113, 2908293, 0, 49585040, 0, 0, 144587, some 9253364⟩
  | Feat.oldbalanceDest =>
      ⟨1100701, 3399180, 0, 356015089, 0, 0, 324784, some 14239246⟩
  | Feat.newbalanceDest =>
      ⟨1224996, 3564366, 0, 356179278, 0, 0, 417334, some 14928629⟩

/-- Rendering of a numeric value inside a reason message (abstraction of the
Python float format specifiers, see the file comment). -/
def fmt (q : ℚ) : String := toString q

/-- Reason appended when a value is far above the 99th percentile. -/
def ratioReason (feature : String) (value r : ℚ) : String :=
  feature ++ " (" ++ fmt value ++ ") is " ++ fmt r ++
    "x higher than typical values"

/-- Reason appended when a value exceeds the recorded maximum. -/
def maxReason (feature : String) (value maxObserved : ℚ) : String :=
  feature ++ " (" ++ fmt value ++ ") exceeds maximum observed value of " ++
    fmt maxObserved

/-- Reason appended when a value is negative. -/
def negativeReason (feature : String) (value : ℚ) : String :=
  feature ++ " (" ++ fmt value ++ ") is negative"

/-- The fixed balance-consistency reason string. -/
def balanceMismatchReason : String :=
  "Balance change doesn\x27t match transaction amount"

/-- The fixed reason returned when nothing triggered. -/
def noAnomaliesReason : String := "No anomalies detected"

/-- The separator of `"; ".join(reasons)`. -/
def semicolonSep : String := "; "

/-- The 99th-percentile reference `stats.get` with its `0.9 * max`
fallback. -/
def q99Ref (s : FeatureStats) : ℚ := s.q99.getD (s.max * 0.9)

/-- First per-field check of `is_anomalous`: value above the 99th-percentile
reference, with the ratio guard. -/
def highCheck (feature : String) (value : ℚ) (s : FeatureStats) :
    ℚ × List String :=
  if value > q99Ref s then
    let ratioVal := value / max (q99Ref s) 1
    if ratioVal > 1.5 then
      (min (ratioVal * 2) 20, [ratioReason feature value ratioVal])
    else ((0 : ℚ), ([] : List String))
  else ((0 : ℚ), ([] : List String))

/-- Second per-field check of `is_anomalous`: value above the recorded
maximum, scored by a capped z-score with the standard deviation floored at
one. -/
def maxCheck (feature : String) (value : ℚ) (s : FeatureStats) :
    ℚ × List String :=
  if value > s.max then
    let z := (value - s.mean) / max s.std 1
    (min |z| 30, [maxReason feature value s.max])
  else ((0 : ℚ), ([] : List String))

/-- Third per-field check of `is_anomalous`: negative value. -/
def negCheck (feature : String) (value : ℚ) (s : FeatureStats) :
    ℚ × List String :=
  if value < 0 then ((10 : ℚ), [negativeReason feature value])
  else ((0 : ℚ), ([] : List String))

/-- One iteration of the feature loop of `is_anomalous`: the three checks run
in sequence, each adding its score and appending its reason. -/
def checkFeature (feature : String) (value : ℚ) (s : FeatureStats) :
    ℚ × List String :=
  ((highCheck feature value s).1 + (maxCheck feature value s).1 +
      (negCheck feature value s).1,
   (highCheck feature value s).2 ++ (maxCheck feature value s).2 ++
      (negCheck feature value s).2)

/-- The fold step of the feature loop: accumulate score and reasons. -/
def foldStep (t : Transaction) (acc : ℚ × List String) (f : Feat) :
    ℚ × List String :=
  let c := checkFeature (featName f) (featValue t f) (feature_stats f)
  (acc.1 + c.1, acc.2 ++ c.2)

/-- `is_anomalous` of `app/utils/preprocessing.py`: per-field checks over the
five numeric features in order, then the cross-field balance-consistency
check, then the threshold decision and the joined reason string.  The
membership guards of the source (`feature in transaction`,
`feature in _feature_stats`, the two balance keys, `transaction.get` for
amount) are always satisfied here because the schema makes every field
required and the bundled table is complete. -/
def is_anomalous (t : Transaction) : Bool × ℚ × String :=
  let acc := featList.foldl (foldStep t) ((0 : ℚ), ([] : List String))
  let acc2 :=
    if |t.oldbalanceOrg - t.newbalanceOrig - t.amount| >
        0.01 * max t.amount 1 then
      (acc.1 + 3, acc.2 ++ [balanceMismatchReason])
    else acc
  (decide (acc2.1 > 5), acc2.1,
    if acc2.2.isEmpty then noAnomaliesReason
    else String.intercalate semicolonSep acc2.2)

/-- The output record assembled by `FraudDetectionService.predict`. -/
structure PredictionResult where
  fraud_probability : ℚ
  is_fraud : Bool
  confidence_score : ℚ
  is_anomalous : Bool
  anomaly_reason : String
  deriving Repr, DecidableEq

/-- An opaque scikit-learn object held by the service: either a freshly
constructed default estimator or an object unpickled from disk. -/
inductive SkObj
  | randomForestClassifier
  | standardScaler
  | pickled (blob : Nat)
  deriving Repr, DecidableEq

/-- The three ways `_load_model` can go at startup: both files load, a file is
missing, or loading raises. -/
inductive LoadOutcome
  | filesLoaded (modelBlob scalerBlob : Nat)
  | fileMissing
  | loadRaised (msg : String)
  deriving Repr, DecidableEq

/-- `FraudDetectionService._load_model`: on success the unpickled objects are
stored; when a file is missing or loading raises, a fresh default
`RandomForestClassifier` and `StandardScaler` are substituted.  Returns the
(model, scaler) attribute pair after construction. -/
def load_model : LoadOutcome → Option SkObj × Option SkObj
  | LoadOutcome.filesLoaded m s => (some (SkObj.pickled m), some (SkObj.pickled s))
  | LoadOutcome.fileMissing =>
      (some SkObj.randomForestClassifier, some SkObj.standardScaler)
  | LoadOutcome.loadRaised _ =>
      (some SkObj.randomForestClassifier, some SkObj.standardScaler)

/-- Outcome of the scale-and-classify chain inside the inner `try` of
`predict`: either the raw probability the classifier returned, or the message
of the exception it raised. -/
def Inference := Except String ℚ

/-- The probability used downstream: the classifier output on success, the
substituted `0.1` when the inner `try` caught an inference failure. -/
def probaOf : Except String ℚ → ℚ
  | Except.ok p => p
  | Except.error _ => 0.1

/-- The base confidence `abs(proba - 0.5) * 2` of `predict`. -/
def baseConfidence (proba : ℚ) : ℚ := |proba - 0.5| * 2

/-- The early return of `predict` taken when the model or scaler attribute is
`None`: fixed probability, fraud flag and confidence, with the anomaly
outputs carried through. -/
def modelUnavailableResult (t : Transaction) : PredictionResult :=
  let a := is_anomalous t
  ⟨0.1, false, 0.8, a.1, if a.1 then a.2.2 else ""⟩

/-- The tail of `predict` once the model and scaler are present: take the
(possibly substituted) probability, damp the base confidence when the
transaction is anomalous, and assemble the result record. -/
def inferenceResult (inference : Except String ℚ) (t : Transaction) :
    PredictionResult :=
  let a := is_anomalous t
  let proba := probaOf inference
  let confidence := baseConfidence proba
  let confidence :=
    if a.1 then max 0.1 (confidence * (1 - min (a.2.1 / 50) 0.9))
    else confidence
  ⟨proba, decide (proba > 0.5), confidence, a.1, if a.1 then a.2.2 else ""⟩

/-- The body of `predict` inside the outer `try`: branch on whether the model
and scaler are loaded. -/
def predictInfer (model scaler : Option SkObj)
    (inference : Except String ℚ) (t : Transaction) : PredictionResult :=
  if model.isNone || scaler.isNone then modelUnavailableResult t
  else inferenceResult inference t

/-- The reason string of the outermost exception handler of `predict`. -/
def errorReason (msg : String) : String :=
  "Error during prediction: " ++ msg

/-- The last-resort default result of the outermost exception handler of
`predict`. -/
def errorResult (msg : String) : PredictionResult :=
  ⟨0.1, false, 0.8, false, errorReason msg⟩

/-- How one call to `predict` can unfold: either some exception escapes the
two inner fallback layers and reaches the outermost handler, or the call runs
the body with a given inference outcome. -/
inductive PredictStep
  | outerRaise (msg : String)
  | infer (inference : Except String ℚ)
  deriving Repr

/-- `FraudDetectionService.predict`, total over every way a call can unfold:
the outermost handler converts an escaped exception into the last-resort
default, otherwise the body runs. -/
def predict (model scaler : Option SkObj) (st : PredictStep)
    (t : Transaction) : PredictionResult :=
  match st with
  | PredictStep.outerRaise msg => errorResult msg
  | PredictStep.infer inference => predictInfer model scaler inference t

/-- The per-item re-wrapping in `batch_predict` (`float`, `bool`, `str` on
fields already of those types): the identity on the result record. -/
def coercedCopy (r : PredictionResult) : PredictionResult :=
  ⟨r.fraud_probability, r.is_fraud, r.confidence_score, r.is_anomalous,
   r.anomaly_reason⟩

/-- The loop of `FraudDetectionService.batch_predict`: `predict` applied to
each item in order, each result re-wrapped into native types.  Each item
carries its own way of unfolding, so a per-item failure is absorbed by
`predict` itself. -/
def batch_predict (model scaler : Option SkObj)
    (items : List (Transaction × PredictStep)) : List PredictionResult :=
  items.map fun it => coercedCopy (predict model scaler it.2 it.1)

/-- The batch-level error message raised by `batch_predict`. -/
def batchErrorReason (msg : String) : String :=
  "Error in batch prediction: " ++ msg

/-- `batch_predict` with its surrounding `try`: a failure of the iteration
scaffolding itself (and only that) is re-raised as a batch-level error. -/
def batch_predict_run (scaffoldFailure : Option String)
    (model scaler : Option SkObj) (items : List (Transaction × PredictStep)) :
    Except String (List PredictionResult) :=
  match scaffoldFailure with
  | some msg => Except.error (batchErrorReason msg)
  | none => Except.ok (batch_predict model scaler items)

/-- Following the claim wording for the anomaly score: the sum of the
per-field scores over the features in iteration order. -/
def specFieldScore (t : Transaction) : ℚ :=
  (featList.map fun f =>
    (checkFeature (featName f) (featValue t f) (feature_stats f)).1).sum

/-- Following the claim wording for the reason list: the per-field reasons in
field-iteration order, then the balance-consistency reason when that check
triggered. -/
def specReasons (t : Transaction) : List String :=
  (featList.map fun f =>
    (checkFeature (featName f) (featValue t f) (feature_stats f)).2).flatten ++
  (if |t.oldbalanceOrg - t.newbalanceOrig - t.amount| >
      0.01 * max t.amount 1 then [balanceMismatchReason] else [])

/-- A concrete in-distribution transaction (the schema example values, with
destination balances moved inside their interquartile-to-99th band): every
numeric field lies in its [q75, q99] range and the origin balance change
matches the amount exactly. -/
def txNormal : Transaction :=
  ⟨some "TX123456789", 1, 9839.64, 170136, 160296.36, 400000, 500000,
   TransactionType.PAYMENT, 0⟩

/-- A sample message of an exception escaping to the outermost handler. -/
def failureMsg : String := "object has no attribute dict"

lemma q99Ref_stats_ge_one (f : Feat) : 1 ≤ q99Ref (feature_stats f) := by
  cases f <;> decide

lemma q99Ref_le_max (f : Feat) :
    q99Ref (feature_stats f) ≤ (feature_stats f).max := by
  cases f <;> decide

lemma q75_nonneg (f : Feat) : 0 ≤ (feature_stats f).q75 := by
  cases f <;> decide

lemma highCheck_fst (feature : String) (value : ℚ) (s : FeatureStats)
    (h : 1 ≤ q99Ref s) :
    (highCheck feature value s).1 =
      if value / max (q99Ref s) 1 > 1.5
      then min (value / max (q99Ref s) 1 * 2) 20 else 0 := by
  have hm : max (q99Ref s) 1 = q99Ref s := max_eq_left h
  have hq : (0 : ℚ) < q99Ref s := lt_of_lt_of_le one_pos h
  unfold highCheck
  by_cases h1 : value / max (q99Ref s) 1 > 1.5
  · have hv : value > q99Ref s := by
      rw [hm] at h1
      have h2 := (lt_div_iff hq).mp h1
      nlinarith
    simp [hv, h1]
  · by_cases hv : value > q99Ref s
    · simp [hv, h1]
    · simp [hv, h1]

lemma maxCheck_fst (feature : String) (value : ℚ) (s : FeatureStats) :
    (maxCheck feature value s).1 =
      if value > s.max
      then min |(value - s.mean) / max s.std 1| 30 else 0 := by
  unfold maxCheck
  by_cases h : value > s.max <;> simp [h]

lemma negCheck_fst (feature : String) (value : ℚ) (s : FeatureStats) :
    (negCheck feature value s).1 = if value < 0 then 10 else 0 := by
  unfold negCheck
  by_cases h : value < 0 <;> simp [h]

lemma checkFeature_fst (feature : String) (value : ℚ) (s : FeatureStats)
    (h : 1 ≤ q99Ref s) :
    (checkFeature feature value s).1 =
      (if value / max (q99Ref s) 1 > 1.5
        then min (value / max (q99Ref s) 1 * 2) 20 else 0) +
      (if value > s.max
        then min |(value - s.mean) / max s.std 1| 30 else 0) +
      (if value < 0 then 10 else 0) := by
  unfold checkFeature
  rw [highCheck_fst feature value s h, maxCheck_fst, negCheck_fst]

lemma highCheck_fst_nonneg (feature : String) (value : ℚ)
    (s : FeatureStats) : 0 ≤ (highCheck feature value s).1 := by
  unfold highCheck
  by_cases hv : value > q99Ref s
  · by_cases h1 : value / max (q99Ref s) 1 > 1.5
    · have : (0 : ℚ) ≤ value / max (q99Ref s) 1 * 2 := by nlinarith
      simp only [hv, h1, if_true]
      exact le_min this (by norm_num)
    · simp [hv, h1]
  · simp [hv]

lemma checkFeature_fst_nonneg (feature : String) (value : ℚ)
    (s : FeatureStats) : 0 ≤ (checkFeature feature value s).1 := by
  unfold checkFeature
  dsimp only
  have h1 := highCheck_fst_nonneg feature value s
  have h2 : (0 : ℚ) ≤ (maxCheck feature value s).1 := by
    rw [maxCheck_fst]
    by_cases h : value > s.max
    · simp only [h, if_true]
      exact le_min (abs_nonneg _) (by norm_num)
    · simp [h]
  have h3 : (0 : ℚ) ≤ (negCheck feature value s).1 := by
    rw [negCheck_fst]
    by_cases h : value < 0 <;> simp [h]
  linarith

lemma foldl_foldStep (t : Transaction) (l : List Feat) (a : ℚ × List String) :
    (l.foldl (foldStep t) a).1 =
      a.1 + (l.map fun f =>
        (checkFeature (featName f) (featValue t f) (feature_stats f)).1).sum ∧
    (l.foldl (foldStep t) a).2 =
      a.2 ++ (l.map fun f =>
        (checkFeature (featName f) (featValue t f) (feature_stats f)).2).flatten := by
  induction l generalizing a with
  | nil => simp
  | cons f fs ih =>
    simp only [List.foldl_cons, List.map_cons, List.sum_cons,
      List.flatten_cons]
    rcases ih (foldStep t a f) with ⟨ih1, ih2⟩
    refine ⟨?_, ?_⟩
    · rw [ih1]
      simp [foldStep, add_assoc]
    · rw [ih2]
      simp [foldStep, List.append_assoc]

lemma is_anomalous_score (t : Transaction) :
    (is_anomalous t).2.1 = specFieldScore t +
      (if |t.oldbalanceOrg - t.newbalanceOrig - t.amount| >
          0.01 * max t.amount 1 then 3 else 0) := by
  have h := (foldl_foldStep t featList ((0 : ℚ), ([] : List String))).1
  unfold is_anomalous specFieldScore
  by_cases hb : |t.oldbalanceOrg - t.newbalanceOrig - t.amount| >
      0.01 * max t.amount 1 <;>
    simp [hb, h]

lemma is_anomalous_fst (t : Transaction) :
    (is_anomalous t).1 = decide ((is_anomalous t).2.1 > 5) := by
  unfold is_anomalous
  by_cases hb : |t.oldbalanceOrg - t.newbalanceOrig - t.amount| >
      0.01 * max t.amount 1 <;>
    simp [hb]

lemma is_anomalous_reason (t : Transaction) :
    (is_anomalous t).2.2 =
      (if (specReasons t).isEmpty then noAnomaliesReason
       else String.intercalate semicolonSep (specReasons t)) := by
  have h := (foldl_foldStep t featList ((0 : ℚ), ([] : List String))).2
  unfold is_anomalous specReasons
  by_cases hb : |t.oldbalanceOrg - t.newbalanceOrig - t.amount| >
      0.01 * max t.amount 1 <;>
    simp [hb, h]

lemma anomaly_score_nonneg (t : Transaction) : 0 ≤ (is_anomalous t).2.1 := by
  rw [is_anomalous_score]
  have h1 : (0 : ℚ) ≤ specFieldScore t := by
    unfold specFieldScore
    refine List.sum_nonneg ?_
    intro x hx
    simp only [List.mem_map] at hx
    rcases hx with ⟨f, _, rfl⟩
    exact checkFeature_fst_nonneg _ _ _
  by_cases hb : |t.oldbalanceOrg - t.newbalanceOrig - t.amount| >
      0.01 * max t.amount 1 <;> simp [hb] <;> linarith

lemma inferenceResult_confidence (inference : Except String ℚ)
    (t : Transaction) :
    (inferenceResult inference t).confidence_score =
      (if (is_anomalous t).1 = true
        then max 0.1 (baseConfidence (probaOf inference) *
          (1 - min ((is_anomalous t).2.1 / 50) 0.9))
        else baseConfidence (probaOf inference)) := rfl

lemma inferenceResult_is_anomalous (inference : Except String ℚ)
    (t : Transaction) :
    (inferenceResult inference t).is_anomalous = (is_anomalous t).1 := rfl

lemma probaOf_bounds (inference : Except String ℚ)
    (hp : ∀ p : ℚ, inference = Except.ok p → 0 ≤ p ∧ p ≤ 1) :
    0 ≤ probaOf inference ∧ probaOf inference ≤ 1 := by
  cases inference with
  | ok p => exact hp p rfl
  | error e => norm_num [probaOf]

lemma baseConfidence_bounds (q : ℚ) (h0 : 0 ≤ q) (h1 : q ≤ 1) :
    0 ≤ baseConfidence q ∧ baseConfidence q ≤ 1 := by
  unfold baseConfidence
  have habs : |q - 0.5| ≤ 0.5 := abs_le.mpr ⟨by linarith, by linarith⟩
  have habs0 : (0 : ℚ) ≤ |q - 0.5| := abs_nonneg _
  exact ⟨by linarith, by linarith⟩

lemma inferenceResult_confidence_bounds (inference : Except String ℚ)
    (t : Transaction)
    (hp : ∀ p : ℚ, inference = Except.ok p → 0 ≤ p ∧ p ≤ 1) :
    0 ≤ (inferenceResult inference t).confidence_score ∧
    (inferenceResult inference t).confidence_score ≤ 1 ∧
    ((is_anomalous t).1 = true →
      0.1 ≤ (inferenceResult inference t).confidence_score) := by
  rcases probaOf_bounds inference hp with ⟨hq0, hq1⟩
  rcases baseConfidence_bounds (probaOf inference) hq0 hq1 with ⟨hb0, hb1⟩
  have hsc := anomaly_score_nonneg t
  rw [inferenceResult_confidence]
  by_cases ha : (is_anomalous t).1 = true
  · simp only [ha, if_true]
    have hmin0 : (0 : ℚ) ≤ min ((is_anomalous t).2.1 / 50) 0.9 :=
      le_min (by positivity) (by norm_num)
    have hmin9 : min ((is_anomalous t).2.1 / 50) 0.9 ≤ 0.9 :=
      min_le_right _ _
    have hfac0 : (0 : ℚ) ≤ 1 - min ((is_anomalous t).2.1 / 50) 0.9 := by
      linarith
    have hfac1 : 1 - min ((is_anomalous t).2.1 / 50) 0.9 ≤ 1 := by
      linarith
    have hmul1 : baseConfidence (probaOf inference) *
        (1 - min ((is_anomalous t).2.1 / 50) 0.9) ≤ 1 := by
      nlinarith
    refine ⟨le_trans (by norm_num) (le_max_left _ _), ?_, ?_⟩
    · exact max_le (by norm_num) hmul1
    · intro _
      exact le_max_left _ _
  · rw [if_neg ha]
    exact ⟨hb0, hb1, fun h => absurd h ha⟩

lemma anomaly_zero_of_in_range (t : Transaction)
    (hq : ∀ f ∈ featList, (feature_stats f).q75 ≤ featValue t f ∧
        featValue t f ≤ q99Ref (feature_stats f))
    (hbal : |t.oldbalanceOrg - t.newbalanceOrig - t.amount| ≤
        0.01 * max t.amount 1) :
    (is_anomalous t).2.1 = 0 ∧ (is_anomalous t).1 = false := by
  have hzero : ∀ f ∈ featList,
      (checkFeature (featName f) (featValue t f) (feature_stats f)).1 = 0 := by
    intro f hf
    rcases hq f hf with ⟨h75, h99⟩
    rw [checkFeature_fst _ _ _ (q99Ref_stats_ge_one f)]
    have hv0 : (0 : ℚ) ≤ featValue t f := le_trans (q75_nonneg f) h75
    have hmax : ¬ (featValue t f > (feature_stats f).max) :=
      not_lt.mpr (le_trans h99 (q99Ref_le_max f))
    have hneg : ¬ (featValue t f < 0) := not_lt.mpr hv0
    have hratio :
        ¬ (featValue t f / max (q99Ref (feature_stats f)) 1 > 1.5) := by
      have h1 := q99Ref_stats_ge_one f
      have hm : max (q99Ref (feature_stats f)) 1 = q99Ref (feature_stats f) :=
        max_eq_left h1
      have hqpos : (0 : ℚ) < q99Ref (feature_stats f) :=
        lt_of_lt_of_le one_pos h1
      rw [hm, not_lt, div_le_iff hqpos]
      nlinarith
    simp [hratio, hmax, hneg]
  have hscore : specFieldScore t = 0 := by
    unfold specFieldScore
    refine List.sum_eq_zero ?_
    intro x hx
    simp only [List.mem_map] at hx
    rcases hx with ⟨f, hf, rfl⟩
    exact hzero f hf
  have hbcond : ¬ (|t.oldbalanceOrg - t.newbalanceOrig - t.amount| >
      0.01 * max t.amount 1) := not_lt.mpr hbal
  have hs : (is_anomalous t).2.1 = 0 := by
    rw [is_anomalous_score]
    simp [hbcond, hscore]
  refine ⟨hs, ?_⟩
  rw [is_anomalous_fst, hs]
  norm_num

lemma txNormal_in_range :
    ∀ f ∈ featList, (feature_stats f).q75 ≤ featValue txNormal f ∧
      featValue txNormal f ≤ q99Ref (feature_stats f) := by
  intro f hf
  fin_cases hf <;>
    norm_num [featValue, feature_stats, q99Ref, txNormal]

lemma txNormal_balanced :
    |txNormal.oldbalanceOrg - txNormal.newbalanceOrig - txNormal.amount| ≤
      0.01 * max txNormal.amount 1 := by
  rw [max_eq_left (by norm_num [txNormal])]
  norm_num [txNormal]

lemma is_anomalous_txNormal :
    (is_anomalous txNormal).2.1 = 0 ∧ (is_anomalous txNormal).1 = false :=
  anomaly_zero_of_in_range txNormal txNormal_in_range txNormal_balanced

/-- C1: for every transaction and each of the five numeric fields, the
anomaly detector adds exactly the three independent, additive per-field
penalties: `min(ratio * 2, 20)` when the value exceeds the 99th-percentile
reference by more than 50 percent (ratio above 1.5), a z-score capped at 30
when the value exceeds the recorded maximum, and a fixed 10 when the value is
negative; one field can trigger several of them in the same call. -/
theorem anomaly_field_penalties_additive (t : Transaction) (f : Feat) :
    (checkFeature (featName f) (featValue t f) (feature_stats f)).1 =
      (if featValue t f / max (q99Ref (feature_stats f)) 1 > 1.5
        then min (featValue t f / max (q99Ref (feature_stats f)) 1 * 2) 20
        else 0) +
      (if featValue t f > (feature_stats f).max
        then min |(featValue t f - (feature_stats f).mean) /
            max (feature_stats f).std 1| 30
        else 0) +
      (if featValue t f < 0 then 10 else 0) :=
  checkFeature_fst _ _ _ (q99Ref_stats_ge_one f)

/-- C2: the balance-consistency check adds 3 to the score exactly when the
origin balance change differs from the amount by more than the one-percent
tolerance; the final decision is the score compared strictly against 5; and
the reason is the semicolon-joined concatenation of all triggered reasons in
field-iteration order followed by the consistency reason, or the fixed
no-anomalies string when nothing triggered. -/
theorem anomaly_decision_and_reason (t : Transaction) :
    (is_anomalous t).2.1 = specFieldScore t +
      (if |t.oldbalanceOrg - t.newbalanceOrig - t.amount| >
          0.01 * max t.amount 1 then 3 else 0) ∧
    (is_anomalous t).1 = decide ((is_anomalous t).2.1 > 5) ∧
    (is_anomalous t).2.2 =
      (if (specReasons t).isEmpty then noAnomaliesReason
       else String.intercalate semicolonSep (specReasons t)) :=
  ⟨is_anomalous_score t, is_anomalous_fst t, is_anomalous_reason t⟩

/-- C3: on the normal and inference-failure paths, the confidence score is
the base distance-from-boundary value when the transaction is not anomalous,
and the damped, floored value when it is; the raw probability is the
classifier output on the normal path and the substituted 0.1 on the
inference-failure path. -/
theorem confidence_adjustment_formula (inference : Except String ℚ)
    (p : ℚ) (e : String) (t : Transaction) :
    (inferenceResult inference t).confidence_score =
      (if (is_anomalous t).1 = true
        then max 0.1 (|probaOf inference - 0.5| * 2 *
          (1 - min ((is_anomalous t).2.1 / 50) 0.9))
        else |probaOf inference - 0.5| * 2) ∧
    probaOf (Except.ok p) = p ∧
    probaOf (Except.error e) = 0.1 :=
  ⟨inferenceResult_confidence inference t, rfl, rfl⟩

/-- C4: a transaction whose five numeric fields each lie in the [q75, q99]
band of the reference statistics and whose origin balance change matches the
amount within tolerance gets anomaly score 0 and is not anomalous. -/
theorem in_range_consistent_score_zero (t : Transaction)
    (hq : ∀ f ∈ featList, (feature_stats f).q75 ≤ featValue t f ∧
        featValue t f ≤ q99Ref (feature_stats f))
    (hbal : |t.oldbalanceOrg - t.newbalanceOrig - t.amount| ≤
        0.01 * max t.amount 1) :
    (is_anomalous t).2.1 = 0 ∧ (is_anomalous t).1 = false :=
  anomaly_zero_of_in_range t hq hbal

/-- C4 witness: a concrete transaction with every field in its [q75, q99]
band and an exactly consistent balance change scores 0. -/
theorem in_range_consistent_witness :
    (∀ f ∈ featList, (feature_stats f).q75 ≤ featValue txNormal f ∧
        featValue txNormal f ≤ q99Ref (feature_stats f)) ∧
    |txNormal.oldbalanceOrg - txNormal.newbalanceOrig - txNormal.amount| ≤
      0.01 * max txNormal.amount 1 ∧
    ((is_anomalous txNormal).2.1 = 0 ∧ (is_anomalous txNormal).1 = false) :=
  ⟨txNormal_in_range, txNormal_balanced,
    in_range_consistent_score_zero txNormal txNormal_in_range
      txNormal_balanced⟩

lemma inferenceResult_is_fraud (inference : Except String ℚ)
    (t : Transaction) :
    (inferenceResult inference t).is_fraud =
      decide (probaOf inference > 0.5) := rfl

lemma inferenceResult_reason (inference : Except String ℚ)
    (t : Transaction) :
    (inferenceResult inference t).anomaly_reason =
      (if (is_anomalous t).1 then (is_anomalous t).2.2 else "") := rfl

lemma modelUnavailable_is_anomalous (t : Transaction) :
    (modelUnavailableResult t).is_anomalous = (is_anomalous t).1 := rfl

lemma modelUnavailable_reason (t : Transaction) :
    (modelUnavailableResult t).anomaly_reason =
      (if (is_anomalous t).1 then (is_anomalous t).2.2 else "") := rfl

lemma coercedCopy_eq (r : PredictionResult) : coercedCopy r = r := rfl

/-- C5: assuming the classifier's raw probability lies in [0, 1], the
confidence score of the result lies in [0.1, 1] whenever the result is
anomalous and in [0, 1] otherwise, on every path of `predict` including the
fallbacks that return 0.8. -/
theorem confidence_score_bounds (model scaler : Option SkObj)
    (st : PredictStep) (t : Transaction)
    (hp : ∀ p : ℚ, st = PredictStep.infer (Except.ok p) → 0 ≤ p ∧ p ≤ 1) :
    ((predict model scaler st t).is_anomalous = true →
      0.1 ≤ (predict model scaler st t).confidence_score ∧
      (predict model scaler st t).confidence_score ≤ 1) ∧
    ((predict model scaler st t).is_anomalous = false →
      0 ≤ (predict model scaler st t).confidence_score ∧
      (predict model scaler st t).confidence_score ≤ 1) := by
  cases st with
  | outerRaise msg =>
      refine ⟨?_, ?_⟩ <;> intro _ <;> constructor <;>
        norm_num [predict, errorResult]
  | infer inference =>
      have hp2 : ∀ p : ℚ, inference = Except.ok p → 0 ≤ p ∧ p ≤ 1 := by
        intro p hpe
        exact hp p (by rw [hpe])
      simp only [predict]
      by_cases hm : model.isNone || scaler.isNone
      · unfold predictInfer
        rw [if_pos hm]
        refine ⟨?_, ?_⟩ <;> intro _ <;> constructor <;>
          norm_num [modelUnavailableResult]
      · unfold predictInfer
        rw [if_neg hm]
        rcases inferenceResult_confidence_bounds inference t hp2 with
          ⟨hc0, hc1, hc01⟩
        refine ⟨?_, ?_⟩
        · intro h
          rw [inferenceResult_is_anomalous] at h
          exact ⟨hc01 h, hc1⟩
        · intro _
          exact ⟨hc0, hc1⟩

/-- C5 witness: with the models present, a raw probability of 0.7 and the
in-range transaction, the hypothesis holds and the bounds follow. -/
theorem confidence_score_bounds_witness :
    (∀ p : ℚ, PredictStep.infer (Except.ok (0.7 : ℚ)) =
        PredictStep.infer (Except.ok p) → 0 ≤ p ∧ p ≤ 1) ∧
    (((predict (some SkObj.randomForestClassifier)
          (some SkObj.standardScaler)
          (PredictStep.infer (Except.ok (0.7 : ℚ))) txNormal).is_anomalous
            = true →
        0.1 ≤ (predict (some SkObj.randomForestClassifier)
          (some SkObj.standardScaler)
          (PredictStep.infer (Except.ok (0.7 : ℚ))) txNormal).confidence_score ∧
        (predict (some SkObj.randomForestClassifier)
          (some SkObj.standardScaler)
          (PredictStep.infer (Except.ok (0.7 : ℚ))) txNormal).confidence_score
            ≤ 1) ∧
      ((predict (some SkObj.randomForestClassifier)
          (some SkObj.standardScaler)
          (PredictStep.infer (Except.ok (0.7 : ℚ))) txNormal).is_anomalous
            = false →
        0 ≤ (predict (some SkObj.randomForestClassifier)
          (some SkObj.standardScaler)
          (PredictStep.infer (Except.ok (0.7 : ℚ))) txNormal).confidence_score ∧
        (predict (some SkObj.randomForestClassifier)
          (some SkObj.standardScaler)
          (PredictStep.infer (Except.ok (0.7 : ℚ))) txNormal).confidence_score
            ≤ 1)) := by
  have hp : ∀ p : ℚ, PredictStep.infer (Except.ok (0.7 : ℚ)) =
      PredictStep.infer (Except.ok p) → 0 ≤ p ∧ p ≤ 1 := by
    intro p h
    injection h with h1
    injection h1 with h2
    subst h2
    norm_num
  exact ⟨hp, confidence_score_bounds _ _ _ _ hp⟩

/-- C6: an exception escaping the two inner fallback layers is converted by
the outermost handler into the last-resort default result: probability 0.1,
not fraud, confidence 0.8, not anomalous, and a reason string describing the
error; `predict` is total, so no failure propagates to the caller. -/
theorem outer_error_default_result (model scaler : Option SkObj)
    (t : Transaction) (msg : String) :
    predict model scaler (PredictStep.outerRaise msg) t =
      (⟨0.1, false, 0.8, false, errorReason msg⟩ : PredictionResult) ∧
    errorReason msg = "Error during prediction: " ++ msg :=
  ⟨rfl, rfl⟩

/-- C7: `batch_predict` maps `predict` over the items, preserving length and
order; per-item failures are absorbed inside `predict` (every item yields a
result), and exactly a scaffolding failure surfaces as the batch-level
error. -/
theorem batch_predict_pointwise (model scaler : Option SkObj)
    (items : List (Transaction × PredictStep)) (i : Nat) (msg : String) :
    (batch_predict model scaler items).length = items.length ∧
    (batch_predict model scaler items)[i]? =
      (items[i]?).map (fun it => predict model scaler it.2 it.1) ∧
    batch_predict_run none model scaler items =
      Except.ok (batch_predict model scaler items) ∧
    batch_predict_run (some msg) model scaler items =
      Except.error (batchErrorReason msg) := by
  refine ⟨?_, ?_, rfl, rfl⟩
  · simp [batch_predict]
  · simp [batch_predict, coercedCopy_eq]

/-- C8 counterexample: on the outer-error path, `predict` returns a result
with `is_anomalous` false and a non-empty `anomaly_reason`, so the claim that
the reason is empty whenever the result is not anomalous fails as stated. -/
theorem anomaly_reason_nonempty_on_error_path :
    (predict none none (PredictStep.outerRaise failureMsg)
        txNormal).is_anomalous = false ∧
    (predict none none (PredictStep.outerRaise failureMsg)
        txNormal).anomaly_reason ≠ "" := by
  refine ⟨rfl, ?_⟩
  decide

/-- C8 as amended: on the model-unavailable and inference paths of the body
of `predict`, the anomaly reason is the empty string whenever the result is
not anomalous. -/
theorem anomaly_reason_empty_when_not_anomalous
    (model scaler : Option SkObj) (inference : Except String ℚ)
    (t : Transaction)
    (h : (predictInfer model scaler inference t).is_anomalous = false) :
    (predictInfer model scaler inference t).anomaly_reason = "" := by
  by_cases hm : model.isNone || scaler.isNone
  · unfold predictInfer at h ⊢
    rw [if_pos hm] at h ⊢
    rw [modelUnavailable_is_anomalous] at h
    rw [modelUnavailable_reason, h]
    simp
  · unfold predictInfer at h ⊢
    rw [if_neg hm] at h ⊢
    rw [inferenceResult_is_anomalous] at h
    rw [inferenceResult_reason, h]
    simp

/-- C8 witness: the in-range transaction on the normal path is not anomalous
and its anomaly reason is empty. -/
theorem anomaly_reason_empty_witness :
    (predictInfer (some SkObj.randomForestClassifier)
        (some SkObj.standardScaler) (Except.ok 0.7)
        txNormal).is_anomalous = false ∧
    (predictInfer (some SkObj.randomForestClassifier)
        (some SkObj.standardScaler) (Except.ok 0.7)
        txNormal).anomaly_reason = "" := by
  have h : (predictInfer (some SkObj.randomForestClassifier)
      (some SkObj.standardScaler) (Except.ok 0.7)
      txNormal).is_anomalous = false := by
    unfold predictInfer
    rw [if_neg (by simp)]
    rw [inferenceResult_is_anomalous]
    exact is_anomalous_txNormal.2
  exact ⟨h, anomaly_reason_empty_when_not_anomalous _ _ _ _ h⟩

/-- C9: on the normal path, the result is fraud exactly when the raw
probability is strictly above 0.5; a probability of exactly 0.5 yields
is-fraud false and a base confidence of 0. -/
theorem is_fraud_strict_threshold (p : ℚ) (t : Transaction) :
    ((inferenceResult (Except.ok p) t).is_fraud = true ↔ p > 0.5) ∧
    (inferenceResult (Except.ok (0.5 : ℚ)) t).is_fraud = false ∧
    baseConfidence (0.5 : ℚ) = 0 := by
  refine ⟨?_, ?_, ?_⟩
  · rw [inferenceResult_is_fraud]
    simp [probaOf]
  · rw [inferenceResult_is_fraud]
    norm_num [probaOf]
  · unfold baseConfidence
    norm_num

/-- C10: after `_load_model`, the model and scaler attributes are populated
in every outcome (loaded objects on success, fresh defaults when a file is
missing or loading raises), so the model-unavailable branch of `predict` is
never taken: the body always runs the inference path. -/
theorem model_never_none_after_load (o : LoadOutcome)
    (inference : Except String ℚ) (t : Transaction) :
    (load_model o).1.isSome = true ∧ (load_model o).2.isSome = true ∧
    predict (load_model o).1 (load_model o).2
        (PredictStep.infer inference) t = inferenceResult inference t := by
  cases o <;> simp [load_model, predict, predictInfer]

end FraudDetection
